import Mathlib

/-!
Verification of the RTDM synchronization and task layer
(ksrc/skins/rtdm/drvlib.c) against its natural-language specification.

The C functions are shallowly embedded as pure Lean functions.  Machine
details kept from the source: return codes are the negated Linux errno
values; timeouts are signed 64-bit nanosecond counts modelled as `Int`
(no arithmetic in the embedded code can overflow 64 bits on the inputs
the claims quantify over, so `Int` is exact); the thread information
flags XNTIMEO/XNRMID/XNBREAK become a record of three booleans; the
nucleus services the layer calls into (current time, tick conversion,
the state of the world while a thread is suspended) are passed in as
explicit oracle arguments, so each embedded function is a pure function
of its C arguments plus the environment's choices.
-/

/-- Linux errno values used by drvlib.c (returned negated). -/
def EPERM : Int := 1

def EINTR : Int := 4

def EWOULDBLOCK : Int := 11

def EIDRM : Int := 43

def ETIMEDOUT : Int := 110

/-- `XN_INFINITE` of the nucleus: the zero timeout, meaning an unbounded
wait (for waits) or non-periodic mode (for `rtdm_task_init`). -/
def XN_INFINITE : Int := 0

/-- The subset of xnthread information flags drvlib.c inspects after a
suspension: XNTIMEO (watchdog fired), XNRMID (wait object deleted),
XNBREAK (forcibly unblocked).  A wake with none of them set is a normal
wakeup through the synch object. -/
structure Flags where
  timeo : Bool
  rmid : Bool
  brk : Bool
deriving DecidableEq, Repr

/-- No information flag set: the normal-wakeup tag (reason 0). -/
def Flags.zero : Flags := ⟨false, false, false⟩

/-- The XNRMID deletion reason, as passed to `_rtdm_synch_flush`. -/
def Flags.rmidReason : Flags := ⟨false, true, false⟩

/-- The XNBREAK forced-unblock reason. -/
def Flags.brkReason : Flags := ⟨false, false, true⟩

/-- `xnthread_test_flags (thread, XNTIMEO|XNRMID|XNBREAK)`. -/
def Flags.any (f : Flags) : Bool := f.timeo || f.rmid || f.brk

/-- The `xnsynch` base embedded in every RTDM primitive, with the only
fields drvlib.c touches: the RTDM_SYNCH_DELETED spare status bit, the
RTDM_EVENT_PENDING spare status bit (events only), the owner thread
(mutexes only) and the queue of suspended threads.  Threads are
identified by numbers; the queue is kept in wakeup order (the
priority-queue discipline lives in the nucleus collaborator). -/
structure XnSynch where
  deleted : Bool
  pending : Bool
  owner : Option Nat
  waitq : List Nat
deriving DecidableEq, Repr

/-- Modelled from the spec: `xnsynch_flush` of the nucleus (not under
src/) wakes every task waiting on the synch object, tagging each with
the given reason, and reports XNSYNCH_RESCHED exactly when at least one
task was woken.  It does not touch the spare status bits or the owner. -/
def xnsynch_flush (s : XnSynch) (reason : Flags) :
    XnSynch × List (Nat × Flags) × Bool :=
  (⟨s.deleted, s.pending, s.owner, []⟩,
   s.waitq.map (fun t => (t, reason)),
   !s.waitq.isEmpty)

/-- Modelled from the spec: `xnsynch_wakeup_one_sleeper` of the nucleus
(not under src/) dequeues and wakes the first waiter, if any, and does
not touch the status bits or the owner. -/
def xnsynch_wakeup_one_sleeper (s : XnSynch) : XnSynch × Option Nat :=
  match s.waitq with
  | [] => (s, none)
  | t :: rest => (⟨s.deleted, s.pending, s.owner, rest⟩, some t)

/-- `_rtdm_synch_flush` (drvlib.c): under the lock, set the
RTDM_SYNCH_DELETED bit when the reason is XNRMID, then flush all
waiters with that reason (rescheduling if any was woken).  Returns the
new state and the woken tasks with their tags. -/
def _rtdm_synch_flush (s : XnSynch) (reason : Flags) :
    XnSynch × List (Nat × Flags) :=
  let s1 := if reason = Flags.rmidReason then
    ⟨true, s.pending, s.owner, s.waitq⟩ else s
  let r := xnsynch_flush s1 reason
  (r.1, r.2.1)

/-- `rtdm_event_signal` (drvlib.c): set RTDM_EVENT_PENDING, then flush
all waiters with reason 0 (normal wakeup), rescheduling if any. -/
def rtdm_event_signal (e : XnSynch) : XnSynch × List (Nat × Flags) :=
  let e1 : XnSynch := ⟨e.deleted, true, e.owner, e.waitq⟩
  let r := xnsynch_flush e1 Flags.zero
  (r.1, r.2.1)

/-- Modelled from the spec: `rtdm_event_pulse` (inline in
rtdm_driver.h, not under src/) wakes all current waiters without
setting pending, through the shared flush path with reason 0. -/
def rtdm_event_pulse (e : XnSynch) : XnSynch × List (Nat × Flags) :=
  _rtdm_synch_flush e Flags.zero

/-- `rtdm_event_clear` (drvlib.c): unconditionally clear
RTDM_EVENT_PENDING. -/
def rtdm_event_clear (e : XnSynch) : XnSynch :=
  ⟨e.deleted, false, e.owner, e.waitq⟩

/-- The three-component result of a single-sleep wait service: the
return code, the primitive state it leaves behind, and the tick budget
passed to `xnsynch_sleep_on` (`none` when the call never suspended). -/
abbrev WaitRes (σ : Type) := Int × σ × Option Int

/-- The tail of `rtdm_event_timedwait` after `xnsynch_sleep_on`
returns: on a clean wakeup clear RTDM_EVENT_PENDING (on the event state
as it stands at resume time, supplied by the oracle) and succeed;
otherwise map XNTIMEO, XNRMID, XNBREAK to the negated ETIMEDOUT,
EIDRM, EINTR codes in that test order. -/
def eventWake (wake : Flags) (eAtWake : XnSynch) (budget : Int) :
    WaitRes XnSynch :=
  if !wake.any then (0, rtdm_event_clear eAtWake, some budget)
  else if wake.timeo then (-ETIMEDOUT, eAtWake, some budget)
  else if wake.rmid then (-EIDRM, eAtWake, some budget)
  else (-EINTR, eAtWake, some budget)

/-- `rtdm_event_timedwait` (drvlib.c).  Oracle arguments: `unblockable`
is `xnpod_unblockable_p()` (the XENO_ASSERT guard), `now` is
`xnpod_get_time()` at the timeout-sequence recomputation, `ns2t` is
`xnpod_ns2ticks`, and `wake`/`eAtWake` are the thread flags and event
state observed when `xnsynch_sleep_on` returns. -/
def rtdm_event_timedwait (unblockable : Bool) (e : XnSynch)
    (timeout : Int) (timeout_seq : Option Int) (now : Int)
    (ns2t : Int → Int) (wake : Flags) (eAtWake : XnSynch) :
    WaitRes XnSynch :=
  if unblockable then (-EPERM, e, none)
  else if e.deleted then (-EIDRM, e, none)
  else if e.pending then (0, rtdm_event_clear e, none)
  else if timeout < 0 then (-EWOULDBLOCK, e, none)
  else
    match timeout_seq with
    | some deadline =>
      if 0 < timeout then
        let remaining := deadline - now
        if remaining ≤ 0 then (-ETIMEDOUT, e, none)
        else eventWake wake eAtWake remaining
      else eventWake wake eAtWake (ns2t timeout)
    | none => eventWake wake eAtWake (ns2t timeout)

/-- An RTDM semaphore: the synch base plus the unsigned counter. -/
structure RtdmSem where
  synch : XnSynch
  value : Nat
deriving DecidableEq, Repr

/-- The tail of `rtdm_sem_timeddown` after `xnsynch_sleep_on` returns:
a clean wakeup means the unit was handed over directly by
`rtdm_sem_up` (no decrement here); otherwise the same three-way error
mapping as the event in the same test order. -/
def semWake (wake : Flags) (sAtWake : RtdmSem) (budget : Int) :
    WaitRes RtdmSem :=
  if wake.any then
    if wake.timeo then (-ETIMEDOUT, sAtWake, some budget)
    else if wake.rmid then (-EIDRM, sAtWake, some budget)
    else (-EINTR, sAtWake, some budget)
  else (0, sAtWake, some budget)

/-- `rtdm_sem_timeddown` (drvlib.c), with the same oracle arguments as
`rtdm_event_timedwait`. -/
def rtdm_sem_timeddown (unblockable : Bool) (sem : RtdmSem)
    (timeout : Int) (timeout_seq : Option Int) (now : Int)
    (ns2t : Int → Int) (wake : Flags) (sAtWake : RtdmSem) :
    WaitRes RtdmSem :=
  if unblockable then (-EPERM, sem, none)
  else if sem.synch.deleted then (-EIDRM, sem, none)
  else if 0 < sem.value then (0, ⟨sem.synch, sem.value - 1⟩, none)
  else if timeout < 0 then (-EWOULDBLOCK, sem, none)
  else
    match timeout_seq with
    | some deadline =>
      if 0 < timeout then
        let remaining := deadline - now
        if remaining ≤ 0 then (-ETIMEDOUT, sem, none)
        else semWake wake sAtWake remaining
      else semWake wake sAtWake (ns2t timeout)
    | none => semWake wake sAtWake (ns2t timeout)

/-- `rtdm_sem_up` (drvlib.c): wake one sleeper if any (value
untouched), otherwise increment the value.  Returns the new state and
the woken task, if any. -/
def rtdm_sem_up (sem : RtdmSem) : RtdmSem × Option Nat :=
  match xnsynch_wakeup_one_sleeper sem.synch with
  | (s, some t) => (⟨s, sem.value⟩, some t)
  | (s, none) => (⟨s, sem.value + 1⟩, none)

/-- One loop iteration's environment in `rtdm_mutex_timedlock`: the
value of `xnpod_get_time()` at the top of the iteration and the thread
flags observed when `xnsynch_sleep_on` returns. -/
structure MutexIter where
  now : Int
  wake : Flags
deriving DecidableEq, Repr

/-- The tail of one `rtdm_mutex_timedlock` loop iteration after
`xnsynch_sleep_on` returns with budget `budget`: XNTIMEO and XNRMID end
the call with the negated ETIMEDOUT and EIDRM codes; XNBREAK alone
takes the `goto restart` edge (modelled by `cont`); a clean wakeup
falls out of the loop with `err` still 0. -/
def mutexWake (wake : Flags) (budget : Int)
    (cont : Option Int × List Int) : Option Int × List Int :=
  if wake.any then
    if wake.timeo then (some (-ETIMEDOUT), [budget])
    else if wake.rmid then (some (-EIDRM), [budget])
    else (cont.1, budget :: cont.2)
  else (some 0, [budget])

/-- The `restart:` loop of `rtdm_mutex_timedlock` (drvlib.c), one list
element per iteration the environment allows.  In the source the
timeout-sequence branch overwrites the local `timeout` with the
remaining budget, which is positive whenever the branch sleeps, so the
branch condition `timeout_seq && timeout > 0` has the same value on
every iteration and the recomputation always subtracts from the
unchanged `*timeout_seq`; the recursion therefore carries the original
`timeout` unchanged.  Returns `none` when the environment list runs out
with the caller still suspended, `some code` otherwise, paired with the
budgets of the sleeps performed in order. -/
def mutexSleepLoop (timeout_seq : Option Int) (timeout : Int)
    (ns2t : Int → Int) : List MutexIter → Option Int × List Int
  | [] => (none, [])
  | it :: rest =>
    match timeout_seq with
    | some deadline =>
      if 0 < timeout then
        let remaining := deadline - it.now
        if remaining ≤ 0 then (some (-ETIMEDOUT), [])
        else mutexWake it.wake remaining
          (mutexSleepLoop timeout_seq timeout ns2t rest)
      else mutexWake it.wake (ns2t timeout)
        (mutexSleepLoop timeout_seq timeout ns2t rest)
    | none => mutexWake it.wake (ns2t timeout)
      (mutexSleepLoop timeout_seq timeout ns2t rest)

/-- `rtdm_mutex_timedlock` (drvlib.c), called by thread `caller`.
Entry decision under the lock: EIDRM if deleted, immediate ownership if
`xnsynch_owner` is NULL, EWOULDBLOCK on a negative timeout, otherwise
the restart loop.  The function itself writes the mutex only on the
immediate-acquisition path (`xnsynch_set_owner`); on the sleeping path
ownership is handed over by `rtdm_mutex_unlock` running elsewhere, so
the state returned here is the entry state.  Result: the return code
(`none` if the environment kept the caller suspended), the mutex state
as this call leaves it, and the sleep budgets used. -/
def rtdm_mutex_timedlock (unblockable : Bool) (m : XnSynch)
    (caller : Nat) (timeout : Int) (timeout_seq : Option Int)
    (ns2t : Int → Int) (env : List MutexIter) :
    Option Int × XnSynch × List Int :=
  if unblockable then (some (-EPERM), m, [])
  else if m.deleted then (some (-EIDRM), m, [])
  else if m.owner.isNone then
    (some 0, ⟨m.deleted, m.pending, some caller, m.waitq⟩, [])
  else if timeout < 0 then (some (-EWOULDBLOCK), m, [])
  else
    let r := mutexSleepLoop timeout_seq timeout ns2t env
    (r.1, m, r.2)

/-- Modelled from the spec: `rtdm_mutex_unlock` (inline in
rtdm_driver.h, not under src/) releases ownership; if a waiter exists
it is woken and handed ownership directly (no window where the mutex
appears unowned), else the owner becomes empty.  Status bits are not
touched. -/
def rtdm_mutex_unlock (m : XnSynch) : XnSynch × Option Nat :=
  match m.waitq with
  | [] => (⟨m.deleted, m.pending, none, m.waitq⟩, none)
  | t :: rest => (⟨m.deleted, m.pending, some t, rest⟩, some t)

/-- Modelled from the spec: `rtdm_toseq_init` (inline in rtdm_driver.h,
not under src/) stores `now + timeout` as the absolute deadline when
the relative timeout is strictly positive, and stores the raw value
verbatim otherwise (0 and negative preserved as sentinels). -/
def rtdm_toseq_init (timeout : Int) (now : Int) : Int :=
  if 0 < timeout then now + timeout else timeout

/-- The outcome of `rtdm_task_init` (drvlib.c): the return code,
whether `xnpod_init_thread` created the thread, and whether
`xnpod_delete_thread` tore it down before returning. -/
structure TaskInitRes where
  code : Int
  created : Bool
  deleted : Bool
deriving DecidableEq, Repr

/-- `rtdm_task_init` (drvlib.c), as a function of the result codes the
three nucleus calls would return: `initRes` for `xnpod_init_thread`,
`periodicRes` for `xnpod_set_thread_periodic` (consulted only when
`period != XN_INFINITE`), `startRes` for `xnpod_start_thread`.  A
non-zero step result takes the corresponding `goto`; `cleanup_out`
deletes the created thread before returning the failing step's code. -/
def rtdm_task_init (period : Int) (initRes periodicRes startRes : Int) :
    TaskInitRes :=
  if initRes ≠ 0 then ⟨initRes, false, false⟩
  else if period ≠ XN_INFINITE ∧ periodicRes ≠ 0 then
    ⟨periodicRes, true, true⟩
  else if startRes ≠ 0 then ⟨startRes, true, true⟩
  else ⟨0, true, false⟩

/-- `rtdm_task_sleep_until` (drvlib.c).  `unblockable` is the
XENO_ASSERT guard; `now` is `xnpod_get_time()`; `ns2t` is
`xnpod_ns2ticks`; `wakeBrk` tells whether the suspension (when taken)
ended with XNBREAK set.  Returns the code and whether
`xnpod_suspend_thread` was called. -/
def rtdm_task_sleep_until (unblockable : Bool) (wakeup_time : Int)
    (now : Int) (ns2t : Int → Int) (wakeBrk : Bool) : Int × Bool :=
  if unblockable then (-EPERM, false)
  else
    let delay := ns2t wakeup_time - now
    if 0 < delay then (if wakeBrk then -EINTR else 0, true)
    else (0, false)

/-- C9: `rtdm_task_sleep_until` from a blockable context returns 0
immediately, without suspending, when the absolute wakeup time is not
strictly in the future (delay ≤ 0 after tick conversion); when the
delay is strictly positive it suspends and returns -EINTR exactly when
the sleep was broken by an explicit unblock, 0 otherwise. -/
theorem sleep_until_past_deadline_immediate (wakeup_time now : Int)
    (ns2t : Int → Int) (wakeBrk : Bool) :
    (ns2t wakeup_time - now ≤ 0 →
      rtdm_task_sleep_until false wakeup_time now ns2t wakeBrk =
        (0, false)) ∧
    (0 < ns2t wakeup_time - now →
      (rtdm_task_sleep_until false wakeup_time now ns2t wakeBrk).2 =
        true ∧
      ((rtdm_task_sleep_until false wakeup_time now ns2t wakeBrk).1 =
          -EINTR ↔ wakeBrk = true) ∧
      (wakeBrk = false →
        (rtdm_task_sleep_until false wakeup_time now ns2t wakeBrk).1 =
          0)) := by
  constructor
  · intro h
    simp [rtdm_task_sleep_until, not_lt.mpr h]
  · intro h
    cases wakeBrk <;> simp [rtdm_task_sleep_until, h, EINTR]

/-- Witness for C9 at the concrete input wakeup 5, now 8 (deadline
already passed), exercising the immediate-return branch. -/
theorem sleep_until_past_deadline_immediate_case :
    rtdm_task_sleep_until false 5 8 (fun x => x) true = (0, false) :=
  (sleep_until_past_deadline_immediate 5 8 (fun x => x) true).1
    (by decide)

/-- C4: in `rtdm_task_init`, any step failing after successful thread
creation (periodic setup for a non-infinite period, or thread start)
deletes the created thread and returns that step's error; a success
code is never paired with a deleted task and a deleted task is never
paired with a success code. -/
theorem task_init_cleanup_on_failure
    (period initRes periodicRes startRes : Int) :
    ((rtdm_task_init period initRes periodicRes startRes).code = 0 →
      (rtdm_task_init period initRes periodicRes startRes).created =
          true ∧
      (rtdm_task_init period initRes periodicRes startRes).deleted =
          false) ∧
    (initRes = 0 → period ≠ XN_INFINITE → periodicRes ≠ 0 →
      rtdm_task_init period initRes periodicRes startRes =
        ⟨periodicRes, true, true⟩) ∧
    (initRes = 0 → (period = XN_INFINITE ∨ periodicRes = 0) →
      startRes ≠ 0 →
      rtdm_task_init period initRes periodicRes startRes =
        ⟨startRes, true, true⟩) ∧
    ((rtdm_task_init period initRes periodicRes startRes).created =
        true →
      (rtdm_task_init period initRes periodicRes startRes).code ≠ 0 →
      (rtdm_task_init period initRes periodicRes startRes).deleted =
        true) ∧
    ((rtdm_task_init period initRes periodicRes startRes).deleted =
        true →
      (rtdm_task_init period initRes periodicRes startRes).code ≠ 0) := by
  unfold rtdm_task_init
  split_ifs with h1 h2 h3 <;>
    refine ⟨?_, ?_, ?_, ?_, ?_⟩ <;> simp_all

/-- Witness for C4: period 7, periodic setup failing with -5 after a
successful creation; the task is torn down and -5 is returned. -/
theorem task_init_cleanup_on_failure_case :
    rtdm_task_init 7 0 (-5) 0 = ⟨-5, true, true⟩ :=
  (task_init_cleanup_on_failure 7 0 (-5) 0).2.1 (by decide) (by decide)
    (by decide)

/-- C6: on a non-deleted event, a `rtdm_event_timedwait` immediately
after `rtdm_event_signal` (no intervening wait) returns 0 without
suspending, for every timeout value, and clears the pending flag. -/
theorem event_wait_after_signal_succeeds (e : XnSynch) (timeout : Int)
    (timeout_seq : Option Int) (now : Int) (ns2t : Int → Int)
    (wake : Flags) (eAtWake : XnSynch) (hd : e.deleted = false) :
    rtdm_event_timedwait false (rtdm_event_signal e).1 timeout
        timeout_seq now ns2t wake eAtWake =
      (0, rtdm_event_clear (rtdm_event_signal e).1, none) ∧
    (rtdm_event_clear (rtdm_event_signal e).1).pending = false := by
  constructor
  · simp [rtdm_event_timedwait, rtdm_event_signal, xnsynch_flush, hd,
      rtdm_event_clear]
  · simp [rtdm_event_clear]

/-- Witness for C6 on a concrete event with one waiter, negative
timeout. -/
theorem event_wait_after_signal_succeeds_case :
    rtdm_event_timedwait false
        (rtdm_event_signal ⟨false, false, none, [4]⟩).1 (-1) none 0
        (fun x => x) Flags.zero ⟨false, false, none, []⟩ =
      (0, rtdm_event_clear (rtdm_event_signal
        ⟨false, false, none, [4]⟩).1, none) :=
  (event_wait_after_signal_succeeds ⟨false, false, none, [4]⟩ (-1) none
    0 (fun x => x) Flags.zero ⟨false, false, none, []⟩ rfl).1

/-- C8: a `rtdm_mutex_timedlock` by the thread that already owns the
mutex takes the same path as any other contender: the result does not
depend on the caller's identity, the call itself leaves the mutex
state untouched (no double acquisition), and a negative timeout yields
-EWOULDBLOCK. -/
theorem mutex_relock_by_owner_general_path (m : XnSynch)
    (caller other : Nat) (timeout : Int) (timeout_seq : Option Int)
    (ns2t : Int → Int) (env : List MutexIter)
    (hd : m.deleted = false) (ho : m.owner = some caller) :
    rtdm_mutex_timedlock false m caller timeout timeout_seq ns2t env =
      rtdm_mutex_timedlock false m other timeout timeout_seq ns2t
        env ∧
    (rtdm_mutex_timedlock false m caller timeout timeout_seq ns2t
        env).2.1 = m ∧
    (timeout < 0 →
      (rtdm_mutex_timedlock false m caller timeout timeout_seq ns2t
        env).1 = some (-EWOULDBLOCK)) := by
  refine ⟨?_, ?_, ?_⟩
  · simp [rtdm_mutex_timedlock, hd, ho]
  · by_cases ht : timeout < 0 <;> simp [rtdm_mutex_timedlock, hd, ho, ht]
  · intro ht
    simp [rtdm_mutex_timedlock, hd, ho, ht]

/-- Witness for C8: thread 3 re-requesting the mutex it owns with a
negative timeout gets -EWOULDBLOCK, like any other contender. -/
theorem mutex_relock_by_owner_general_path_case :
    rtdm_mutex_timedlock false ⟨false, false, some 3, []⟩ 3 (-1) none
        (fun x => x) [] =
      rtdm_mutex_timedlock false ⟨false, false, some 3, []⟩ 8 (-1) none
        (fun x => x) [] :=
  (mutex_relock_by_owner_general_path ⟨false, false, some 3, []⟩ 3 8
    (-1) none (fun x => x) [] rfl rfl).1

/-- C5: the RTDM_SYNCH_DELETED bit, set by `_rtdm_synch_flush` on the
XNRMID reason, is never cleared by any core operation (signal, pulse,
clear, wait, up, down, lock, unlock, or a later flush with any
reason), and every wait/down/lock on a deleted primitive fails with
-EIDRM leaving the state untouched. -/
theorem deleted_bit_is_permanent (s : XnSynch) (sem : RtdmSem)
    (reason : Flags) (timeout : Int) (timeout_seq : Option Int)
    (now : Int) (ns2t : Int → Int) (wake : Flags) (eAtWake : XnSynch)
    (sAtWake : RtdmSem) (caller : Nat) (env : List MutexIter)
    (hs : s.deleted = true) (hsem : sem.synch.deleted = true) :
    (∀ s0 : XnSynch,
      (_rtdm_synch_flush s0 Flags.rmidReason).1.deleted = true) ∧
    ((_rtdm_synch_flush s reason).1.deleted = true) ∧
    ((rtdm_event_signal s).1.deleted = true) ∧
    ((rtdm_event_pulse s).1.deleted = true) ∧
    ((rtdm_event_clear s).deleted = true) ∧
    (rtdm_event_timedwait false s timeout timeout_seq now ns2t wake
        eAtWake = (-EIDRM, s, none)) ∧
    (rtdm_sem_timeddown false sem timeout timeout_seq now ns2t wake
        sAtWake = (-EIDRM, sem, none)) ∧
    ((rtdm_sem_up sem).1.synch.deleted = true) ∧
    (rtdm_mutex_timedlock false s caller timeout timeout_seq ns2t env =
      (some (-EIDRM), s, [])) ∧
    ((rtdm_mutex_unlock s).1.deleted = true) := by
  refine ⟨?_, ?_, ?_, ?_, ?_, ?_, ?_, ?_, ?_, ?_⟩
  · intro s0
    simp [_rtdm_synch_flush, xnsynch_flush]
  · unfold _rtdm_synch_flush xnsynch_flush
    split <;> simp [hs]
  · simp [rtdm_event_signal, xnsynch_flush, hs]
  · unfold rtdm_event_pulse _rtdm_synch_flush xnsynch_flush
    split <;> simp [hs]
  · simp [rtdm_event_clear, hs]
  · simp [rtdm_event_timedwait, hs]
  · simp [rtdm_sem_timeddown, hsem]
  · unfold rtdm_sem_up xnsynch_wakeup_one_sleeper
    rcases h : sem.synch.waitq with _ | ⟨t, rest⟩ <;> simp_all
  · simp [rtdm_mutex_timedlock, hs]
  · unfold rtdm_mutex_unlock
    rcases s.waitq with _ | ⟨t, rest⟩ <;> simp [hs]

/-- Witness for C5: destroying a primitive with one waiter sets the
deleted bit, and a subsequent lock attempt fails with -EIDRM. -/
theorem deleted_bit_is_permanent_case :
    rtdm_mutex_timedlock false
        (_rtdm_synch_flush ⟨false, false, none, [2]⟩
          Flags.rmidReason).1 7 0 none (fun x => x) [] =
      (some (-EIDRM),
        (_rtdm_synch_flush ⟨false, false, none, [2]⟩
          Flags.rmidReason).1, []) :=
  (deleted_bit_is_permanent
    (_rtdm_synch_flush ⟨false, false, none, [2]⟩ Flags.rmidReason).1
    ⟨⟨true, false, none, []⟩, 0⟩ Flags.zero 0 none 0 (fun x => x)
    Flags.zero ⟨false, false, none, []⟩ ⟨⟨true, false, none, []⟩, 0⟩ 7
    [] (by decide) (by decide)).2.2.2.2.2.2.2.2.1

/-- C7: with a negative timeout, availability is tested before the
sign of the timeout: an available, non-deleted resource is taken with
return 0 and no suspension, and -EWOULDBLOCK comes back exactly when
the primitive is not deleted and the resource is unavailable. -/
theorem negative_timeout_tests_availability_first (e : XnSynch)
    (sem : RtdmSem) (m : XnSynch) (caller : Nat) (timeout : Int)
    (timeout_seq : Option Int) (now : Int) (ns2t : Int → Int)
    (wake : Flags) (eAtWake : XnSynch) (sAtWake : RtdmSem)
    (env : List MutexIter) (ht : timeout < 0) :
    ((rtdm_event_timedwait false e timeout timeout_seq now ns2t wake
        eAtWake).1 = -EWOULDBLOCK ↔
      e.deleted = false ∧ e.pending = false) ∧
    (e.deleted = false → e.pending = true →
      rtdm_event_timedwait false e timeout timeout_seq now ns2t wake
        eAtWake = (0, rtdm_event_clear e, none)) ∧
    ((rtdm_sem_timeddown false sem timeout timeout_seq now ns2t wake
        sAtWake).1 = -EWOULDBLOCK ↔
      sem.synch.deleted = false ∧ sem.value = 0) ∧
    (sem.synch.deleted = false → 0 < sem.value →
      rtdm_sem_timeddown false sem timeout timeout_seq now ns2t wake
        sAtWake = (0, ⟨sem.synch, sem.value - 1⟩, none)) ∧
    ((rtdm_mutex_timedlock false m caller timeout timeout_seq ns2t
        env).1 = some (-EWOULDBLOCK) ↔
      m.deleted = false ∧ m.owner.isSome = true) ∧
    (m.deleted = false → m.owner = none →
      rtdm_mutex_timedlock false m caller timeout timeout_seq ns2t
        env =
        (some 0, ⟨m.deleted, m.pending, some caller, m.waitq⟩, [])) := by
  refine ⟨?_, ?_, ?_, ?_, ?_, ?_⟩
  · rcases e with ⟨ed, ep, eo, eq⟩
    cases ed <;> cases ep <;>
      simp [rtdm_event_timedwait, ht, EWOULDBLOCK, EIDRM]
  · intro hd hp
    simp [rtdm_event_timedwait, hd, hp]
  · rcases sem with ⟨⟨sd, sp, so, sq⟩, v⟩
    cases sd <;> rcases v with _ | v <;>
      simp [rtdm_sem_timeddown, ht, EWOULDBLOCK, EIDRM]
  · intro hd hv
    simp [rtdm_sem_timeddown, hd, hv]
  · rcases m with ⟨md, mp, mo, mq⟩
    cases md <;> rcases mo with _ | t <;>
      simp [rtdm_mutex_timedlock, ht, EWOULDBLOCK, EIDRM]
  · intro hd hown
    simp [rtdm_mutex_timedlock, hd, hown]

/-- Witness for C7: a pending event taken with timeout -1, and an
empty semaphore refused with -EWOULDBLOCK, at concrete states. -/
theorem negative_timeout_tests_availability_first_case :
    rtdm_event_timedwait false ⟨false, true, none, []⟩ (-1) none 0
        (fun x => x) Flags.zero ⟨false, false, none, []⟩ =
      (0, rtdm_event_clear ⟨false, true, none, []⟩, none) :=
  (negative_timeout_tests_availability_first ⟨false, true, none, []⟩
    ⟨⟨false, false, none, []⟩, 0⟩ ⟨false, false, none, []⟩ 1 (-1) none
    0 (fun x => x) Flags.zero ⟨false, false, none, []⟩
    ⟨⟨false, false, none, []⟩, 0⟩ [] (by decide)).2.1 rfl rfl

/-- `n` consecutive non-blocking `rtdm_sem_timeddown` calls
(timeout -1, no timeout sequence), collecting the return codes and the
final semaphore state.  The oracle arguments are irrelevant on the
negative-timeout path (`sem_timeddown_nonblocking_oracle_free`), so
they are fixed to inert values here. -/
def semDownNBiter : Nat → RtdmSem → List Int × RtdmSem
  | 0, sem => ([], sem)
  | n + 1, sem =>
    let r := rtdm_sem_timeddown false sem (-1) none 0 (fun x => x)
      Flags.zero sem
    let rec0 := semDownNBiter n r.2.1
    (r.1 :: rec0.1, rec0.2)

/-- On the negative-timeout path `rtdm_sem_timeddown` never reaches
the sleep, so its result does not depend on any oracle argument. -/
theorem sem_timeddown_nonblocking_oracle_free (sem : RtdmSem)
    (timeout : Int) (ht : timeout < 0) (ts1 ts2 : Option Int)
    (now1 now2 : Int) (f1 f2 : Int → Int) (w1 w2 : Flags)
    (a1 a2 : RtdmSem) :
    rtdm_sem_timeddown false sem timeout ts1 now1 f1 w1 a1 =
      rtdm_sem_timeddown false sem timeout ts2 now2 f2 w2 a2 := by
  simp [rtdm_sem_timeddown, ht]

/-- Non-blocking downs from value `n` succeed exactly `n` times,
decrementing to 0 and leaving the synch base untouched. -/
theorem semDownNBiter_drains (base : XnSynch)
    (hb : base.deleted = false) :
    ∀ n, semDownNBiter n ⟨base, n⟩ = (List.replicate n 0, ⟨base, 0⟩) := by
  intro n
  induction n with
  | zero => simp [semDownNBiter]
  | succ k ih =>
    have hdown : rtdm_sem_timeddown false ⟨base, k + 1⟩ (-1) none 0
        (fun x => x) Flags.zero ⟨base, k + 1⟩ =
        (0, ⟨base, k⟩, none) := by
      simp [rtdm_sem_timeddown, hb]
    simp only [semDownNBiter, hdown, ih]
    simp [List.replicate]

/-- C2: a semaphore with value N, no waiters and not deleted admits
exactly N successful non-blocking downs (each returning 0), the
(N+1)-th returns -EWOULDBLOCK with the value still 0; and
`rtdm_sem_up` either wakes exactly the first waiter leaving the value
unchanged, or, with no waiter, increments the value — never both. -/
theorem sem_count_discipline (N : Nat) (base : XnSynch)
    (sem : RtdmSem) (now : Int) (ns2t : Int → Int) (wake : Flags)
    (sAtWake : RtdmSem) (hb : base.deleted = false)
    (_hq : base.waitq = []) :
    (semDownNBiter N ⟨base, N⟩ = (List.replicate N 0, ⟨base, 0⟩)) ∧
    (rtdm_sem_timeddown false ⟨base, 0⟩ (-1) none now ns2t wake
        sAtWake = (-EWOULDBLOCK, ⟨base, 0⟩, none)) ∧
    (sem.synch.waitq = [] →
      rtdm_sem_up sem = (⟨sem.synch, sem.value + 1⟩, none)) ∧
    (∀ t rest, sem.synch.waitq = t :: rest →
      rtdm_sem_up sem =
        (⟨⟨sem.synch.deleted, sem.synch.pending, sem.synch.owner,
          rest⟩, sem.value⟩, some t)) := by
  refine ⟨semDownNBiter_drains base hb N, ?_, ?_, ?_⟩
  · simp [rtdm_sem_timeddown, hb]
  · intro h
    simp [rtdm_sem_up, xnsynch_wakeup_one_sleeper, h]
  · intro t rest h
    simp [rtdm_sem_up, xnsynch_wakeup_one_sleeper, h]

/-- Witness for C2 at N = 3: three successful downs, then
-EWOULDBLOCK. -/
theorem sem_count_discipline_case :
    semDownNBiter 3 ⟨⟨false, false, none, []⟩, 3⟩ =
      ([0, 0, 0], ⟨⟨false, false, none, []⟩, 0⟩) ∧
    rtdm_sem_timeddown false ⟨⟨false, false, none, []⟩, 0⟩ (-1) none 0
        (fun x => x) Flags.zero ⟨⟨false, false, none, []⟩, 0⟩ =
      (-EWOULDBLOCK, ⟨⟨false, false, none, []⟩, 0⟩, none) :=
  ⟨(sem_count_discipline 3 ⟨false, false, none, []⟩
      ⟨⟨false, false, none, []⟩, 0⟩ 0 (fun x => x) Flags.zero
      ⟨⟨false, false, none, []⟩, 0⟩ rfl rfl).1,
   (sem_count_discipline 3 ⟨false, false, none, []⟩
      ⟨⟨false, false, none, []⟩, 0⟩ 0 (fun x => x) Flags.zero
      ⟨⟨false, false, none, []⟩, 0⟩ rfl rfl).2.1⟩

/-- A `mutexWake` step returns 0, -ETIMEDOUT, -EIDRM, or whatever the
continuation (the re-entered loop) returns. -/
theorem mutexWake_fst (w : Flags) (b : Int)
    (cont : Option Int × List Int) :
    (mutexWake w b cont).1 = some 0 ∨
    (mutexWake w b cont).1 = some (-ETIMEDOUT) ∨
    (mutexWake w b cont).1 = some (-EIDRM) ∨
    (mutexWake w b cont).1 = cont.1 := by
  unfold mutexWake
  split_ifs <;> simp

/-- Any code the mutex restart loop returns is 0, -ETIMEDOUT or
-EIDRM; in particular it is never -EINTR. -/
theorem mutexSleepLoop_codes (timeout_seq : Option Int) (timeout : Int)
    (ns2t : Int → Int) :
    ∀ env r, (mutexSleepLoop timeout_seq timeout ns2t env).1 = some r →
      r = 0 ∨ r = -ETIMEDOUT ∨ r = -EIDRM := by
  intro env
  induction env with
  | nil =>
    intro r h
    simp [mutexSleepLoop] at h
  | cons it rest ih =>
    intro r h
    rcases timeout_seq with _ | d
    · simp only [mutexSleepLoop] at h
      rcases mutexWake_fst it.wake (ns2t timeout)
          (mutexSleepLoop none timeout ns2t rest) with h0 | h0 | h0 | h0 <;>
        rw [h0] at h
      · exact Or.inl (Option.some.inj h).symm
      · exact Or.inr (Or.inl (Option.some.inj h).symm)
      · exact Or.inr (Or.inr (Option.some.inj h).symm)
      · exact ih r h
    · simp only [mutexSleepLoop] at h
      by_cases hpos : 0 < timeout
      · rw [if_pos hpos] at h
        by_cases hrem : d - it.now ≤ 0
        · rw [if_pos hrem] at h
          exact Or.inr (Or.inl (Option.some.inj h).symm)
        · rw [if_neg hrem] at h
          rcases mutexWake_fst it.wake (d - it.now)
              (mutexSleepLoop (some d) timeout ns2t rest) with
            h0 | h0 | h0 | h0 <;> rw [h0] at h
          · exact Or.inl (Option.some.inj h).symm
          · exact Or.inr (Or.inl (Option.some.inj h).symm)
          · exact Or.inr (Or.inr (Option.some.inj h).symm)
          · exact ih r h
      · rw [if_neg hpos] at h
        rcases mutexWake_fst it.wake (ns2t timeout)
            (mutexSleepLoop (some d) timeout ns2t rest) with
          h0 | h0 | h0 | h0 <;> rw [h0] at h
        · exact Or.inl (Option.some.inj h).symm
        · exact Or.inr (Or.inl (Option.some.inj h).symm)
        · exact Or.inr (Or.inr (Option.some.inj h).symm)
        · exact ih r h

/-- Without a timeout sequence every sleep of the restart loop uses
the same converted full relative timeout. -/
theorem mutexSleepLoop_none_budget (timeout : Int) (ns2t : Int → Int) :
    ∀ env, ∀ b ∈ (mutexSleepLoop none timeout ns2t env).2,
      b = ns2t timeout := by
  intro env
  induction env with
  | nil =>
    intro b hb
    simp [mutexSleepLoop] at hb
  | cons it rest ih =>
    intro b hb
    simp only [mutexSleepLoop] at hb
    unfold mutexWake at hb
    split_ifs at hb
    · simp at hb; exact hb
    · simp at hb; exact hb
    · rcases List.mem_cons.mp hb with h1 | h1
      · exact h1
      · exact ih b h1
    · simp at hb; exact hb

/-- A list whose members all equal `c` sums to its length times `c`. -/
theorem list_sum_const (c : Int) :
    ∀ l : List Int, (∀ b ∈ l, b = c) → l.sum = l.length * c := by
  intro l
  induction l with
  | nil => simp
  | cons a l ih =>
    intro h
    have ha : a = c := h a (List.mem_cons_self a l)
    have hl : ∀ b ∈ l, b = c := fun b hb => h b (List.mem_cons_of_mem a hb)
    simp only [List.sum_cons, List.length_cons, ha, ih hl]
    push_cast
    ring

/-- `budgetsMatch d env bs` checks that the i-th sleep budget equals
the remaining time `d - now_i` recomputed from the unchanged deadline
`d` at the i-th loop iteration. -/
def budgetsMatch (d : Int) : List MutexIter → List Int → Bool
  | _, [] => true
  | [], _ :: _ => false
  | it :: rest, b :: bs => (b == d - it.now) && budgetsMatch d rest bs

/-- With a timeout sequence and a positive timeout, every sleep budget
of the restart loop is recomputed as deadline minus current time, the
deadline never changing. -/
theorem mutexSleepLoop_seq_budgets (d timeout : Int)
    (ns2t : Int → Int) (ht : 0 < timeout) :
    ∀ env, budgetsMatch d env
      (mutexSleepLoop (some d) timeout ns2t env).2 = true := by
  intro env
  induction env with
  | nil => simp [mutexSleepLoop, budgetsMatch]
  | cons it rest ih =>
    simp only [mutexSleepLoop, if_pos ht]
    by_cases hrem : d - it.now ≤ 0
    · rw [if_pos hrem]
      simp [budgetsMatch]
    · rw [if_neg hrem]
      unfold mutexWake
      split_ifs <;> simp [budgetsMatch, ih]

/-- Every branch of the event wakeup tail records the budget it slept
with. -/
theorem eventWake_budget (w : Flags) (eA : XnSynch) (b : Int) :
    (eventWake w eA b).2.2 = some b := by
  unfold eventWake
  split_ifs <;> rfl

/-- Every branch of the semaphore wakeup tail records the budget it
slept with. -/
theorem semWake_budget (w : Flags) (sA : RtdmSem) (b : Int) :
    (semWake w sA b).2.2 = some b := by
  unfold semWake
  split_ifs <;> rfl

/-- C1: a `rtdm_mutex_timedlock` that blocks never returns -EINTR: any
code the call returns is 0, -ETIMEDOUT or -EIDRM; and a wakeup tagged
with the pure XNBREAK reason (no timeout, no deletion) makes the call
re-enter the wait, its outcome being that of the remaining
environment. -/
theorem mutex_break_never_returns_eintr (m : XnSynch) (caller : Nat)
    (timeout_seq : Option Int) (timeout : Int) (ns2t : Int → Int)
    (env rest : List MutexIter) (it : MutexIter) (r : Int) :
    (m.deleted = false → m.owner.isSome = true → 0 ≤ timeout →
      (rtdm_mutex_timedlock false m caller timeout timeout_seq ns2t
        env).1 = some r →
      r = 0 ∨ r = -ETIMEDOUT ∨ r = -EIDRM) ∧
    (it.wake = Flags.brkReason →
      (∀ d, timeout_seq = some d → 0 < timeout → 0 < d - it.now) →
      (mutexSleepLoop timeout_seq timeout ns2t (it :: rest)).1 =
        (mutexSleepLoop timeout_seq timeout ns2t rest).1) := by
  constructor
  · intro hd ho hnn h
    obtain ⟨a, ha⟩ := Option.isSome_iff_exists.mp ho
    simp only [rtdm_mutex_timedlock, hd, ha, not_lt.mpr hnn,
      Bool.false_eq_true, if_false, Option.isNone_some] at h
    exact mutexSleepLoop_codes timeout_seq timeout ns2t env r h
  · intro hw hseq
    rcases timeout_seq with _ | d
    · simp only [mutexSleepLoop]
      rw [hw]
      simp [mutexWake, Flags.brkReason, Flags.any]
    · by_cases hpos : 0 < timeout
      · have hrem := hseq d rfl hpos
        simp only [mutexSleepLoop, if_pos hpos,
          if_neg (not_le.mpr hrem)]
        rw [hw]
        simp [mutexWake, Flags.brkReason, Flags.any]
      · simp only [mutexSleepLoop, if_neg hpos]
        rw [hw]
        simp [mutexWake, Flags.brkReason, Flags.any]

/-- Witness for C1: a pure-break wakeup followed by a clean wakeup
gives the same outcome as the clean wakeup alone. -/
theorem mutex_break_never_returns_eintr_case :
    (mutexSleepLoop none 5 (fun x => x)
        [⟨0, Flags.brkReason⟩, ⟨0, Flags.zero⟩]).1 =
      (mutexSleepLoop none 5 (fun x => x) [⟨0, Flags.zero⟩]).1 :=
  (mutex_break_never_returns_eintr ⟨false, false, some 1, []⟩ 2 none 5
    (fun x => x) [] [⟨0, Flags.zero⟩] ⟨0, Flags.brkReason⟩ 0).2 rfl
    (fun _ hd => nomatch hd)

/-- C10: without a timeout sequence, every re-entered sleep of
`rtdm_mutex_timedlock` uses the full converted relative timeout again,
so the total time slept is the number of sleeps times that budget and,
with at least two sleeps and a positive budget, strictly exceeds the
caller's relative timeout. -/
theorem mutex_restart_reuses_full_timeout (m : XnSynch) (caller : Nat)
    (timeout : Int) (ns2t : Int → Int) (env : List MutexIter)
    (hd : m.deleted = false) (ho : m.owner.isSome = true)
    (hnn : 0 ≤ timeout) :
    ((rtdm_mutex_timedlock false m caller timeout none ns2t env).2.2 =
      (mutexSleepLoop none timeout ns2t env).2) ∧
    (∀ b ∈ (mutexSleepLoop none timeout ns2t env).2,
      b = ns2t timeout) ∧
    ((mutexSleepLoop none timeout ns2t env).2.sum =
      ((mutexSleepLoop none timeout ns2t env).2.length : Int) *
        ns2t timeout) ∧
    (2 ≤ (mutexSleepLoop none timeout ns2t env).2.length →
      0 < ns2t timeout →
      ns2t timeout < (mutexSleepLoop none timeout ns2t env).2.sum) := by
  have hbud := mutexSleepLoop_none_budget timeout ns2t env
  have hsum := list_sum_const (ns2t timeout) _ hbud
  obtain ⟨a, ha⟩ := Option.isSome_iff_exists.mp ho
  refine ⟨?_, hbud, hsum, ?_⟩
  · simp [rtdm_mutex_timedlock, hd, ha, not_lt.mpr hnn]
  · intro hlen hpos
    rw [hsum]
    have h2 : (2 : Int) ≤
        ((mutexSleepLoop none timeout ns2t env).2.length : Int) := by
      exact_mod_cast hlen
    nlinarith

/-- Witness for C10: two break retries then success; three sleeps of
the full budget 5, totalling 15 > 5. -/
theorem mutex_restart_reuses_full_timeout_case :
    ((rtdm_mutex_timedlock false ⟨false, false, some 1, []⟩ 2 5 none
        (fun x => x)
        [⟨0, Flags.brkReason⟩, ⟨0, Flags.brkReason⟩,
          ⟨0, Flags.zero⟩]).2.2 =
      (mutexSleepLoop none 5 (fun x => x)
        [⟨0, Flags.brkReason⟩, ⟨0, Flags.brkReason⟩,
          ⟨0, Flags.zero⟩]).2) ∧
    (fun x => x) 5 <
      (mutexSleepLoop none 5 (fun x => x)
        [⟨0, Flags.brkReason⟩, ⟨0, Flags.brkReason⟩,
          ⟨0, Flags.zero⟩]).2.sum :=
  ⟨(mutex_restart_reuses_full_timeout ⟨false, false, some 1, []⟩ 2 5
      (fun x => x)
      [⟨0, Flags.brkReason⟩, ⟨0, Flags.brkReason⟩, ⟨0, Flags.zero⟩] rfl
      rfl (by decide)).1,
   (mutex_restart_reuses_full_timeout ⟨false, false, some 1, []⟩ 2 5
      (fun x => x)
      [⟨0, Flags.brkReason⟩, ⟨0, Flags.brkReason⟩, ⟨0, Flags.zero⟩] rfl
      rfl (by decide)).2.2.2 (by decide) (by decide)⟩

/-- C3: with a timeout-sequence handle and a strictly positive timeout
on an unavailable resource, each of the three blocking services
recomputes remaining = deadline - now; when remaining ≤ 0 it returns
-ETIMEDOUT at once without suspending, otherwise it sleeps with
exactly that remaining budget, the stored deadline never changing
(for the mutex, every restart's budget is recomputed from the same
deadline). -/
theorem toseq_remaining_budget (e : XnSynch) (sem : RtdmSem)
    (m : XnSynch) (caller : Nat) (timeout d now : Int)
    (ns2t : Int → Int) (wake : Flags) (eAtWake : XnSynch)
    (sAtWake : RtdmSem) (it : MutexIter) (env : List MutexIter)
    (ht : 0 < timeout) :
    (e.deleted = false → e.pending = false →
      (d - now ≤ 0 →
        rtdm_event_timedwait false e timeout (some d) now ns2t wake
          eAtWake = (-ETIMEDOUT, e, none)) ∧
      (0 < d - now →
        (rtdm_event_timedwait false e timeout (some d) now ns2t wake
          eAtWake).2.2 = some (d - now))) ∧
    (sem.synch.deleted = false → sem.value = 0 →
      (d - now ≤ 0 →
        rtdm_sem_timeddown false sem timeout (some d) now ns2t wake
          sAtWake = (-ETIMEDOUT, sem, none)) ∧
      (0 < d - now →
        (rtdm_sem_timeddown false sem timeout (some d) now ns2t wake
          sAtWake).2.2 = some (d - now))) ∧
    (m.deleted = false → m.owner.isSome = true →
      (d - it.now ≤ 0 →
        rtdm_mutex_timedlock false m caller timeout (some d) ns2t
          (it :: env) = (some (-ETIMEDOUT), m, [])) ∧
      budgetsMatch d (it :: env)
        (rtdm_mutex_timedlock false m caller timeout (some d) ns2t
          (it :: env)).2.2 = true) := by
  refine ⟨?_, ?_, ?_⟩
  · intro hd hp
    constructor
    · intro hrem
      simp [rtdm_event_timedwait, hd, hp, not_lt.mpr ht.le, ht, hrem]
    · intro hpos
      simp [rtdm_event_timedwait, hd, hp, not_lt.mpr ht.le, ht,
        not_le.mpr hpos, eventWake_budget]
  · intro hd hv
    constructor
    · intro hrem
      simp [rtdm_sem_timeddown, hd, hv, not_lt.mpr ht.le, ht, hrem]
    · intro hpos
      simp [rtdm_sem_timeddown, hd, hv, not_lt.mpr ht.le, ht,
        not_le.mpr hpos, semWake_budget]
  · intro hd ho
    obtain ⟨a, ha⟩ := Option.isSome_iff_exists.mp ho
    constructor
    · intro hrem
      simp [rtdm_mutex_timedlock, hd, ha, not_lt.mpr ht.le,
        mutexSleepLoop, ht, hrem]
    · simp only [rtdm_mutex_timedlock, hd, ha, not_lt.mpr ht.le,
        Bool.false_eq_true, if_false, Option.isNone_some]
      exact mutexSleepLoop_seq_budgets d timeout ns2t ht (it :: env)

/-- Witness for C3: deadline 10, current time 3, timeout 5 sleeps with
the remaining budget 7 on the event path. -/
theorem toseq_remaining_budget_case :
    (rtdm_event_timedwait false ⟨false, false, none, []⟩ 5 (some 10) 3
        (fun x => x) Flags.zero ⟨false, false, none, []⟩).2.2 =
      some (10 - 3) :=
  ((toseq_remaining_budget ⟨false, false, none, []⟩
      ⟨⟨false, false, none, []⟩, 0⟩ ⟨false, false, some 1, []⟩ 2 5 10 3
      (fun x => x) Flags.zero ⟨false, false, none, []⟩
      ⟨⟨false, false, none, []⟩, 0⟩ ⟨3, Flags.zero⟩ [] (by decide)).1
    rfl rfl).2 (by decide)
